import Mathlib

/-!
Verification of the core of `stock_crypto_prices` against its specification.

Shallow embedding of the two source files:
  * `src/core/models.py`  — `AssetType`, `Tracker` (the spec's "Ticker"),
    `PriceSnapshot` and its derived properties;
  * `src/core/events.py`  — the `EventBus` singleton, its subscriber
    registry, and the dispatch loop of `publish`.

Python floats that the claims compare against `0` are modelled as `ℚ`
(the source applies only ordering, never rounding); Python `datetime`
timestamps are opaque `ℕ` tags; handlers and event types are identified
by `ℕ` tags, matching Python's reference equality for callables and the
use of the event class object as a dict key.  Python exceptions raised by
handler code are modelled by `Except String`, standing for the `Exception`
hierarchy caught by the dispatch loop's `except Exception` clause.
-/

/-! ## models.py -/

/-- `class AssetType(Enum)` with members `STOCK` and `CRYPTO`. -/
inductive AssetType where
  | STOCK
  | CRYPTO
deriving DecidableEq, Repr

/-- The frozen dataclass `Tracker` of `models.py` (the spec calls the
concept "Ticker"): symbol, asset type, display name. -/
structure Tracker where
  symbol : String
  asset_type : AssetType
  display_name : String
deriving DecidableEq, Repr

/-- Construction of a `Tracker`, including `__post_init__`:
`if not self.display_name: object.__setattr__(self, "display_name", self.symbol)`.
For a Python `str`, `not s` is true exactly when `s` is empty. -/
def mkTracker (symbol : String) (asset_type : AssetType) (display_name : String) : Tracker :=
  { symbol := symbol
    asset_type := asset_type
    display_name := if display_name = "" then symbol else display_name }

/-- `Tracker.key`: `return self.symbol.lower()`. -/
def Tracker.key (t : Tracker) : String :=
  t.symbol.toLower

/-- The record declared by the `PriceSnapshot` dataclass of `models.py`
(field order as in the source; the `ticker` annotation in the source
resolves to the name imported from `matplotlib.axis`, which the claims do
not touch, so the field is typed by the repository's own `Tracker`). -/
structure PriceSnapshot where
  timestamp : ℕ
  price : ℚ
  ticker : Tracker
  changes : ℚ
  change_pct : ℚ
deriving DecidableEq, Repr

/-- `PriceSnapshot.is_positive`: `return self.change_pct >= 0`. -/
def PriceSnapshot.is_positive (s : PriceSnapshot) : Bool :=
  decide (s.change_pct ≥ 0)

/-- `PriceSnapshot.direction_symbol`: `return "▲" if self.is_positive else "▼"`. -/
def PriceSnapshot.direction_symbol (s : PriceSnapshot) : String :=
  if s.is_positive then "▲" else "▼"

/-! ### Python load-time machinery needed by the claims

The claims about load-time failures concern two pieces of Python
semantics: the `dataclass` decorator's field-order check, and evaluation
of the statements forming a class body.  Both are embedded just deeply
enough to cover the statement forms that occur in the two source files.
-/

/-- The Python errors that the embedded load-time machinery can raise. -/
inductive PyErr where
  | attrError (obj : String) (attr : String)
  | typeError (msg : String)
deriving DecidableEq, Repr

/-- The `dataclass` decorator's scan over the declared fields, in
declaration order: a field without a default may not follow a field with
a default (`TypeError: non-default argument follows default argument`).
Each field is its name paired with whether it carries a default. -/
def dataclassFieldScan : List (String × Bool) → Bool → Except PyErr Unit
  | [], _ => Except.ok ()
  | (name, hasDefault) :: rest, seenDefault =>
    if !hasDefault && seenDefault then
      Except.error (PyErr.typeError ("non-default argument " ++ name ++ " follows default argument"))
    else
      dataclassFieldScan rest (hasDefault || seenDefault)

/-- The field list of the `PriceSnapshot` dataclass exactly as declared in
`models.py` lines 29–34: `timestamp` has a default
(`field(default_factory=datetime.now)`), the other four do not. -/
def priceSnapshotFields : List (String × Bool) :=
  [("timestamp", true), ("price", false), ("ticker", false),
   ("changes", false), ("change_pct", false)]

/-! ## Claims C8, C9, C10 -/

/-- C8: the `PriceSnapshot` dataclass declares the defaulted field
`timestamp` before the non-default fields `price`, `ticker`, `changes`,
`change_pct`, so the dataclass decorator's field scan rejects the class
with a `TypeError` at module load time, and no `PriceSnapshot` value can
ever be constructed by the program. -/
theorem priceSnapshot_dataclass_rejected :
    dataclassFieldScan priceSnapshotFields false =
      Except.error (PyErr.typeError "non-default argument price follows default argument") ∧
    priceSnapshotFields.head? = some ("timestamp", true) := by
  exact ⟨rfl, rfl⟩

/-- C9 counterexample: the claim "display_name is non-empty after
construction, for every constructed ticker value" fails at the concrete
input `symbol = ""`, `display_name = ""`: `__post_init__` copies the
(empty) symbol into `display_name`, which therefore remains empty. -/
theorem tracker_display_name_empty_counterexample :
    (mkTracker "" AssetType.STOCK "").display_name = "" := by
  rfl

/-- C9 amended: if an empty display name is supplied at construction it is
replaced, once, by the symbol; consequently `display_name` is non-empty
after construction whenever the symbol or the supplied display name is
non-empty (the unamended invariant fails only when both are empty). -/
theorem tracker_display_name_defaults_to_symbol (symbol : String)
    (a : AssetType) (display_name : String) :
    (display_name = "" → (mkTracker symbol a display_name).display_name = symbol) ∧
    (display_name ≠ "" → (mkTracker symbol a display_name).display_name = display_name) ∧
    (symbol ≠ "" ∨ display_name ≠ "" → (mkTracker symbol a display_name).display_name ≠ "") := by
  refine ⟨fun hd => ?_, fun hd => ?_, fun hor => ?_⟩
  · simp [mkTracker, hd]
  · simp [mkTracker, hd]
  · rcases hor with hs | hd
    · by_cases hd : display_name = ""
      · simp [mkTracker, hd]
        exact hs
      · simp [mkTracker, hd]
    · simp [mkTracker, hd]

/-- C9 witness: the amended statement evaluated at `symbol = "AAPL"`,
empty display name. -/
theorem tracker_display_name_defaults_to_symbol_witness :
    (mkTracker "AAPL" AssetType.STOCK "").display_name = "AAPL" ∧
    (mkTracker "AAPL" AssetType.STOCK "").display_name ≠ "" := by
  have h := tracker_display_name_defaults_to_symbol "AAPL" AssetType.STOCK ""
  exact ⟨h.1 rfl, h.2.2 (Or.inl (by decide))⟩

/-- C10: `is_positive` holds exactly when `change_pct ≥ 0`, and the
direction indicator is two-valued, determined solely by `is_positive`,
with `change_pct = 0` classified as positive ("▲", up) rather than as a
distinct unchanged state. -/
theorem is_positive_iff_nonneg_and_direction_two_valued (s : PriceSnapshot) :
    (s.is_positive = true ↔ 0 ≤ s.change_pct) ∧
    s.direction_symbol = (if s.is_positive then "▲" else "▼") ∧
    (s.change_pct = 0 → s.is_positive = true ∧ s.direction_symbol = "▲") ∧
    (s.direction_symbol = "▲" ∨ s.direction_symbol = "▼") := by
  refine ⟨?_, rfl, fun h0 => ?_, ?_⟩
  · simp [PriceSnapshot.is_positive, ge_iff_le]
  · have hpos : s.is_positive = true := by
      simp [PriceSnapshot.is_positive, h0]
    exact ⟨hpos, by simp [PriceSnapshot.direction_symbol, hpos]⟩
  · by_cases h : s.is_positive
    · exact Or.inl (by simp [PriceSnapshot.direction_symbol, h])
    · exact Or.inr (by simp [PriceSnapshot.direction_symbol, h])

/-- C10 witness: the theorem applied to a concrete snapshot with
`change_pct = 0`. -/
theorem is_positive_iff_nonneg_and_direction_two_valued_witness :
    (PriceSnapshot.mk 0 100 (mkTracker "BTC" AssetType.CRYPTO "Bitcoin") 0 0).is_positive = true ∧
    (PriceSnapshot.mk 0 100 (mkTracker "BTC" AssetType.CRYPTO "Bitcoin") 0 0).direction_symbol = "▲" := by
  have h := is_positive_iff_nonneg_and_direction_two_valued
    (PriceSnapshot.mk 0 100 (mkTracker "BTC" AssetType.CRYPTO "Bitcoin") 0 0)
  exact h.2.2.1 rfl

/-! ## events.py — subscriber registry and dispatch

The registry `self._subscribers: dict[EventType, List[EventHandler]]` is
modelled as an insertion-ordered association list from event-type tags to
handler-tag lists.  A handler's behaviour when invoked is a parameter
`σ : HandlerSem`: given the handler, the event passed to it and the
current registry, it yields the registry after any re-entrant
`subscribe`/`unsubscribe` calls the handler makes, together with `ok` or
the exception it raises.  `publish` additionally returns the invocation
log (which handler was called, with which event, in order) and the
diagnostic lines printed by the `except Exception` clause.
-/

/-- The identity of an event class, used as the registry's dict key
(`EventType = type` in the source). -/
abbrev EventType := ℕ

/-- The identity of a registered callable; `list.remove` and dispatch
compare handlers by this identity (Python reference equality). -/
abbrev HandlerId := ℕ

/-- The registry mapping: dict from event type to handler list. -/
abbrev Registry := List (EventType × List HandlerId)

/-- An event instance: its runtime type (`type(event)`) and a tag
distinguishing this instance from any other of the same type. -/
structure Event where
  ty : EventType
  payload : ℕ
deriving DecidableEq, Repr

/-- `d.get(t, default=None)` on the registry dict. -/
def dictGet (reg : Registry) (t : EventType) : Option (List HandlerId) :=
  match reg with
  | [] => none
  | (k, v) :: rest => if k = t then some v else dictGet rest t

/-- `d[t] = v` on the registry dict: updates in place if the key exists
(keeping its position), else appends the new key. -/
def dictSet (reg : Registry) (t : EventType) (v : List HandlerId) : Registry :=
  match reg with
  | [] => [(t, v)]
  | (k, w) :: rest => if k = t then (t, v) :: rest else (k, w) :: dictSet rest t v

/-- `subscribe`: `if event_type not in self._subscribers:
self._subscribers[event_type] = []` then
`self._subscribers[event_type].append(handler)`. -/
def subscribe (reg : Registry) (t : EventType) (h : HandlerId) : Registry :=
  match dictGet reg t with
  | none => dictSet reg t [h]
  | some hs => dictSet reg t (hs ++ [h])

/-- `unsubscribe`: `handlers = self._subscribers.get(event_type, [])`;
`if handler in handlers: handlers.remove(handler)` — `remove` deletes the
first occurrence; when the key is absent the fresh `[]` is mutated (or
not) and the dict is untouched. -/
def unsubscribe (reg : Registry) (t : EventType) (h : HandlerId) : Registry :=
  let handlers := (dictGet reg t).getD []
  if h ∈ handlers then dictSet reg t (handlers.erase h) else reg

/-- Behaviour of handler code when invoked: the registry after the
handler's own re-entrant registry calls, and `ok` or the raised
exception. -/
abbrev HandlerSem := HandlerId → Event → Registry → Registry × Except String Unit

/-- The result of one `publish` call: the registry after dispatch, the
invocation log (handler, event passed) in call order, and the diagnostic
lines `(handler, exception text)` printed by the `except` clause. -/
structure PublishOut where
  reg : Registry
  log : List (HandlerId × Event)
  diags : List (HandlerId × String)
deriving DecidableEq, Repr

/-- The `for handler in handlers` loop of `publish`: invoke each handler
of the snapshot with the event; `try ... except Exception as exc:
print(...)` turns a raised exception into a diagnostic line and
continues with the next handler. -/
def publishLoop (σ : HandlerSem) (e : Event) : List HandlerId → Registry → PublishOut
  | [], reg => ⟨reg, [], []⟩
  | h :: rest, reg =>
    match σ h e reg with
    | (reg', Except.ok _) =>
      let out := publishLoop σ e rest reg'
      ⟨out.reg, (h, e) :: out.log, out.diags⟩
    | (reg', Except.error msg) =>
      let out := publishLoop σ e rest reg'
      ⟨out.reg, (h, e) :: out.log, (h, msg) :: out.diags⟩

/-- `publish`: `event_type = type(event)`; under the lock,
`handlers = list(self._subscribers.get(event_type, []))` (the dispatch
snapshot); then the dispatch loop runs outside the lock. -/
def publish (σ : HandlerSem) (e : Event) (reg : Registry) : PublishOut :=
  let handlers := (dictGet reg e.ty).getD []
  publishLoop σ e handlers reg

/-- Repeated `subscribe` calls for one event type, in list order. -/
def subscribeAll (reg : Registry) (t : EventType) (hs : List HandlerId) : Registry :=
  hs.foldl (fun r g => subscribe r t g) reg

/-! ### Registry lemmas -/

theorem dictGet_dictSet_self (reg : Registry) (t : EventType) (v : List HandlerId) :
    dictGet (dictSet reg t v) t = some v := by
  induction reg with
  | nil => simp [dictGet, dictSet]
  | cons kv rest ih =>
    obtain ⟨k, w⟩ := kv
    by_cases hk : k = t
    · simp [dictGet, dictSet, hk]
    · simp [dictGet, dictSet, hk, ih]

theorem dictGet_subscribe_self (reg : Registry) (t : EventType) (h : HandlerId) :
    dictGet (subscribe reg t h) t = some ((dictGet reg t).getD [] ++ [h]) := by
  unfold subscribe
  cases hG : dictGet reg t with
  | none => simp [dictGet_dictSet_self]
  | some hs => simp [dictGet_dictSet_self]

theorem dictGet_subscribeAll_self (t : EventType) :
    ∀ (hs : List HandlerId) (reg : Registry),
      (dictGet (subscribeAll reg t hs) t).getD [] = (dictGet reg t).getD [] ++ hs := by
  intro hs
  induction hs with
  | nil => intro reg; simp [subscribeAll]
  | cons g rest ih =>
    intro reg
    have hstep : subscribeAll reg t (g :: rest) = subscribeAll (subscribe reg t g) t rest := by
      simp [subscribeAll]
    rw [hstep, ih, dictGet_subscribe_self]
    simp

/-! ### Dispatch-loop lemmas -/

theorem publishLoop_log (σ : HandlerSem) (e : Event) :
    ∀ (hs : List HandlerId) (reg : Registry),
      (publishLoop σ e hs reg).log = hs.map (fun h => (h, e)) := by
  intro hs
  induction hs with
  | nil => intro reg; rfl
  | cons h rest ih =>
    intro reg
    rcases hσ : σ h e reg with ⟨reg', exc⟩
    cases exc with
    | ok u => simp [publishLoop, hσ, ih]
    | error msg => simp [publishLoop, hσ, ih]

theorem publishLoop_append (σ : HandlerSem) (e : Event) :
    ∀ (a b : List HandlerId) (reg : Registry),
      publishLoop σ e (a ++ b) reg =
        ⟨(publishLoop σ e b (publishLoop σ e a reg).reg).reg,
         (publishLoop σ e a reg).log ++ (publishLoop σ e b (publishLoop σ e a reg).reg).log,
         (publishLoop σ e a reg).diags ++ (publishLoop σ e b (publishLoop σ e a reg).reg).diags⟩ := by
  intro a
  induction a with
  | nil => intro b reg; simp [publishLoop]
  | cons h rest ih =>
    intro b reg
    rcases hσ : σ h e reg with ⟨reg', exc⟩
    cases exc with
    | ok u => simp [publishLoop, hσ, ih]
    | error msg => simp [publishLoop, hσ, ih]

theorem publishLoop_reg_id (σ : HandlerSem) (e : Event) :
    ∀ (hs : List HandlerId) (reg : Registry),
      (∀ g ∈ hs, ∀ (ev : Event) (r : Registry), (σ g ev r).1 = r) →
      (publishLoop σ e hs reg).reg = reg := by
  intro hs
  induction hs with
  | nil => intro reg _; rfl
  | cons h rest ih =>
    intro reg hid
    have h1 : (σ h e reg).1 = reg := hid h (by simp) e reg
    have hrest := ih reg (fun g hg => hid g (by simp [hg]))
    rcases hσ : σ h e reg with ⟨reg', exc⟩
    have hreg' : reg' = reg := by rw [← h1, hσ]
    cases exc with
    | ok u => simp [publishLoop, hσ, hreg', hrest]
    | error msg => simp [publishLoop, hσ, hreg', hrest]

theorem publishLoop_reg_cons (σ : HandlerSem) (e : Event) (h : HandlerId)
    (rest : List HandlerId) (reg : Registry) :
    (publishLoop σ e (h :: rest) reg).reg = (publishLoop σ e rest (σ h e reg).1).reg := by
  rcases hσ : σ h e reg with ⟨reg', exc⟩
  cases exc with
  | ok u => simp [publishLoop, hσ]
  | error msg => simp [publishLoop, hσ]

theorem publishLoop_reg_append (σ : HandlerSem) (e : Event)
    (a b : List HandlerId) (reg : Registry) :
    (publishLoop σ e (a ++ b) reg).reg =
      (publishLoop σ e b (publishLoop σ e a reg).reg).reg := by
  rw [publishLoop_append]

/-! ## Claims C1, C2, C3, C6 -/

/-- C1: for every event type `t` and every sequence of handlers `hs`
subscribed, in that order, for `t` (starting from a registry in which `t`
is fresh), `publish` with an event whose type is `t` invokes all the
handlers, in their subscription order, passing each of them that exact
event instance — whatever the handlers themselves do to the registry
(`σ` is arbitrary), since dispatch iterates over the pre-taken
snapshot. -/
theorem publish_invokes_all_in_order (σ : HandlerSem) (reg0 : Registry)
    (t : EventType) (hs : List HandlerId) (e : Event)
    (hfresh : dictGet reg0 t = none) (hty : e.ty = t) :
    (publish σ e (subscribeAll reg0 t hs)).log = hs.map (fun h => (h, e)) := by
  have hsnap : (dictGet (subscribeAll reg0 t hs) e.ty).getD [] = hs := by
    rw [hty, dictGet_subscribeAll_self, hfresh]
    rfl
  simp [publish, hsnap, publishLoop_log]

/-- C1 witness: two handlers subscribed for type `0` into the empty
registry, published a concrete event of type `0` under a no-op handler
semantics. -/
theorem publish_invokes_all_in_order_witness :
    dictGet ([] : Registry) 0 = none ∧ (Event.mk 0 5).ty = 0 ∧
    (publish (fun _ _ r => (r, Except.ok ())) (Event.mk 0 5)
        (subscribeAll [] 0 [1, 2])).log = [(1, Event.mk 0 5), (2, Event.mk 0 5)] := by
  refine ⟨rfl, rfl, ?_⟩
  have h := publish_invokes_all_in_order (fun _ _ r => (r, Except.ok ()))
    [] 0 [1, 2] (Event.mk 0 5) rfl rfl
  simpa using h

/-- C2: if the handler `h` of the dispatch snapshot raises when invoked
(`hraise` states that `σ` returns an exception for `h` at the registry
state dispatch has reached), then `publish` records the diagnostic line
for `h` and still invokes every handler of the snapshot — in particular
all the handlers registered after `h` — and, being a total function,
returns normally to the caller with no error component in its result. -/
theorem publish_isolates_handler_failure (σ : HandlerSem) (reg : Registry)
    (e : Event) (hs1 hs2 : List HandlerId) (h : HandlerId) (msg : String)
    (hget : dictGet reg e.ty = some (hs1 ++ h :: hs2))
    (hraise : (σ h e (publishLoop σ e hs1 reg).reg).2 = Except.error msg) :
    (h, msg) ∈ (publish σ e reg).diags ∧
    (publish σ e reg).log = (hs1 ++ h :: hs2).map (fun g => (g, e)) := by
  have hpub : publish σ e reg = publishLoop σ e (hs1 ++ h :: hs2) reg := by
    simp [publish, hget]
  constructor
  · rw [hpub, publishLoop_append]
    rcases hσ : σ h e (publishLoop σ e hs1 reg).reg with ⟨r', exc⟩
    have hexc : exc = Except.error msg := by rw [← hraise, hσ]
    subst hexc
    simp [publishLoop, hσ]
  · rw [hpub, publishLoop_log]

/-- A handler semantics for the C2 witness: handler `1` always raises
`"boom"`, every other handler returns normally; no handler touches the
registry. -/
def failingSem : HandlerSem :=
  fun g _ r => if g = 1 then (r, Except.error "boom") else (r, Except.ok ())

/-- C2 witness: handlers `0, 1, 2` subscribed for type `0`, handler `1`
raising; the diagnostic is recorded and handler `2`, registered after the
failing one, is still invoked. -/
theorem publish_isolates_handler_failure_witness :
    dictGet [(0, [0, 1, 2])] (Event.mk 0 9).ty = some ([0] ++ 1 :: [2]) ∧
    (failingSem 1 (Event.mk 0 9)
        (publishLoop failingSem (Event.mk 0 9) [0] [(0, [0, 1, 2])]).reg).2 =
      Except.error "boom" ∧
    ((1, "boom") ∈ (publish failingSem (Event.mk 0 9) [(0, [0, 1, 2])]).diags ∧
      (publish failingSem (Event.mk 0 9) [(0, [0, 1, 2])]).log =
        ([0] ++ 1 :: [2]).map (fun g => (g, Event.mk 0 9))) := by
  refine ⟨rfl, rfl, ?_⟩
  exact publish_isolates_handler_failure failingSem [(0, [0, 1, 2])]
    (Event.mk 0 9) [0] [2] 1 "boom" rfl rfl

/-- C3: if the handler `h`, subscribed (once) for type `t`, unsubscribes
itself when invoked (`hself`), and the other handlers leave the registry
alone (`hothers`), then the `publish` of an event of type `t` still
invokes every handler of the pre-dispatch snapshot — `h` included — and a
subsequent `publish` of type `t` no longer invokes `h`. -/
theorem publish_self_unsubscribe (σ : HandlerSem) (reg : Registry) (t : EventType)
    (hs1 hs2 : List HandlerId) (h : HandlerId) (e e' : Event)
    (hty : e.ty = t) (hty' : e'.ty = t)
    (hget : dictGet reg t = some (hs1 ++ h :: hs2))
    (hnot1 : h ∉ hs1) (hnot2 : h ∉ hs2)
    (hself : ∀ (ev : Event) (r : Registry), σ h ev r = (unsubscribe r ev.ty h, Except.ok ()))
    (hothers : ∀ g, g ≠ h → ∀ (ev : Event) (r : Registry), (σ g ev r).1 = r) :
    (publish σ e reg).log = (hs1 ++ h :: hs2).map (fun g => (g, e)) ∧
    h ∉ ((publish σ e' (publish σ e reg).reg).log.map Prod.fst) := by
  have hone : ∀ g ∈ hs1, ∀ (ev : Event) (r : Registry), (σ g ev r).1 = r :=
    fun g hg ev r => hothers g (fun hgh => hnot1 (hgh ▸ hg)) ev r
  have htwo : ∀ g ∈ hs2, ∀ (ev : Event) (r : Registry), (σ g ev r).1 = r :=
    fun g hg ev r => hothers g (fun hgh => hnot2 (hgh ▸ hg)) ev r
  have hpub : publish σ e reg = publishLoop σ e (hs1 ++ h :: hs2) reg := by
    simp [publish, hty, hget]
  have herase : (hs1 ++ h :: hs2).erase h = hs1 ++ hs2 := by
    rw [List.erase_append_right _ (by simpa using hnot1), List.erase_cons_head]
  have hun : unsubscribe reg t h = dictSet reg t (hs1 ++ hs2) := by
    rw [unsubscribe]
    simp only [hget, Option.getD_some]
    rw [if_pos (by simp), herase]
  have hfinal : (publish σ e reg).reg = dictSet reg t (hs1 ++ hs2) := by
    rw [hpub, publishLoop_reg_append, publishLoop_reg_id σ e hs1 reg hone,
      publishLoop_reg_cons, hself e reg, hty]
    simp only []
    rw [publishLoop_reg_id σ e hs2 (unsubscribe reg t h) htwo, hun]
  refine ⟨by rw [hpub, publishLoop_log], ?_⟩
  rw [hfinal]
  have hsnap : (dictGet (dictSet reg t (hs1 ++ hs2)) e'.ty).getD [] = hs1 ++ hs2 := by
    rw [hty', dictGet_dictSet_self]
    rfl
  simp [publish, hsnap, publishLoop_log, List.map_map, Function.comp,
    List.mem_append, hnot1, hnot2]

/-- A handler semantics for the C3 witness: handler `1` unsubscribes
itself from the published event's type; the other handlers do nothing. -/
def selfUnsubSem : HandlerSem :=
  fun g ev r => if g = 1 then (unsubscribe r ev.ty 1, Except.ok ()) else (r, Except.ok ())

/-- C3 witness: handlers `0, 1, 2` subscribed for type `0`; handler `1`
unsubscribes itself during the first publish, is still invoked by it, and
is absent from the second publish of the same type. -/
theorem publish_self_unsubscribe_witness :
    dictGet [(0, [0, 1, 2])] 0 = some ([0] ++ 1 :: [2]) ∧
    ((publish selfUnsubSem (Event.mk 0 3) [(0, [0, 1, 2])]).log =
        ([0] ++ 1 :: [2]).map (fun g => (g, Event.mk 0 3)) ∧
      1 ∉ ((publish selfUnsubSem (Event.mk 0 4)
            (publish selfUnsubSem (Event.mk 0 3) [(0, [0, 1, 2])]).reg).log.map Prod.fst)) := by
  refine ⟨rfl, ?_⟩
  exact publish_self_unsubscribe selfUnsubSem [(0, [0, 1, 2])] 0 [0] [2] 1
    (Event.mk 0 3) (Event.mk 0 4) rfl rfl rfl (by decide) (by decide)
    (fun ev r => rfl) (fun g hg ev r => by simp [selfUnsubSem, hg])

/-- C6: unsubscribing a handler that is not registered for the given
event type — in particular, unsubscribing from a type that has never been
used — raises nothing (the embedded `unsubscribe` is total) and leaves
the registry exactly unchanged. -/
theorem unsubscribe_missing_is_noop (reg : Registry) (t : EventType) (h : HandlerId)
    (habsent : h ∉ (dictGet reg t).getD []) :
    unsubscribe reg t h = reg := by
  simp [unsubscribe, habsent]

/-- C6 witness: a never-subscribed handler for a used type, and any
handler for a never-used type, both leave a concrete registry
unchanged. -/
theorem unsubscribe_missing_is_noop_witness :
    ((2 ∉ (dictGet [(0, [1])] 0).getD []) ∧ unsubscribe [(0, [1])] 0 2 = [(0, [1])]) ∧
    ((1 ∉ (dictGet [(0, [1])] 5).getD []) ∧ unsubscribe [(0, [1])] 5 1 = [(0, [1])]) := by
  exact ⟨⟨by decide, unsubscribe_missing_is_noop _ 0 2 (by decide)⟩,
    ⟨by decide, unsubscribe_missing_is_noop _ 5 1 (by decide)⟩⟩

/-! ## The singleton: `instance()` / `reset()` (claim C7)

Object identity is modelled by an allocation counter: `__init__` gives
each new bus the next fresh tag and an empty `_subscribers` dict.  The
double-checked locking of `instance()` collapses, in this sequential
model, to the single `None` check (the inner re-check sees the same
state). -/

/-- One `EventBus` object: its identity tag and its `_subscribers`
registry. -/
structure Bus where
  id : ℕ
  subscribers : Registry
deriving DecidableEq, Repr

/-- The process-wide state holding the singleton: the class attribute
`_instance` and the allocation counter producing fresh object
identities. -/
structure World where
  inst : Option Bus
  next : ℕ
deriving DecidableEq, Repr

/-- `instance()`: `if cls._instance is None: ... cls._instance = cls()`,
then `return cls._instance`; `cls()` runs `__init__`, which sets
`self._subscribers = {}`. -/
def instanceFn (w : World) : Bus × World :=
  match w.inst with
  | some b => (b, w)
  | none =>
    let b : Bus := ⟨w.next, []⟩
    (b, ⟨some b, w.next + 1⟩)

/-- `reset()`: `cls._instance = None`. -/
def reset (w : World) : World :=
  { w with inst := none }

/-- The allocation invariant giving object identity its meaning: any
currently held singleton was allocated below the counter. -/
def World.wf (w : World) : Prop :=
  ∀ b : Bus, w.inst = some b → b.id < w.next

instance (w : World) : Decidable w.wf := by
  unfold World.wf
  cases w.inst with
  | none => exact isTrue (by intro b hb; cases hb)
  | some b0 =>
    by_cases h : b0.id < w.next
    · exact isTrue (by intro b hb; cases hb; exact h)
    · exact isFalse (fun hall => h (hall b0 rfl))

/-- `instanceFn` preserves the allocation invariant. -/
theorem instanceFn_wf (w : World) (hwf : w.wf) : (instanceFn w).2.wf := by
  unfold instanceFn
  cases hw : w.inst with
  | some b => simpa [hw] using hwf
  | none =>
    intro b hb
    simp at hb
    subst hb
    simp

/-- C7: after `reset()`, the next `instance()` call returns a bus
distinct from the bus held before the reset, and the new bus's
subscriber registry is empty — no handler registered on the old bus
survives. -/
theorem reset_then_instance_fresh (w : World) (b0 : Bus)
    (hwf : w.wf) (hheld : w.inst = some b0) :
    (instanceFn (reset w)).1.id ≠ b0.id ∧
    (instanceFn (reset w)).1.subscribers = [] ∧
    (instanceFn (reset w)).1 ≠ b0 := by
  have hid : b0.id < w.next := hwf b0 hheld
  have hfst : (instanceFn (reset w)).1 = ⟨w.next, []⟩ := by
    simp [instanceFn, reset]
  refine ⟨?_, ?_, ?_⟩
  · rw [hfst]
    exact fun hc => absurd hc.symm (Nat.ne_of_lt hid)
  · rw [hfst]
  · rw [hfst]
    intro hc
    exact absurd (congrArg Bus.id hc).symm (Nat.ne_of_lt hid)

/-- C7 witness: a world holding a bus with one subscription; after the
reset the fresh bus is a different object with an empty registry. -/
theorem reset_then_instance_fresh_witness :
    (World.mk (some ⟨0, [(0, [7])]⟩) 1).wf ∧
    (instanceFn (reset (World.mk (some ⟨0, [(0, [7])]⟩) 1))).1.id ≠ 0 ∧
    (instanceFn (reset (World.mk (some ⟨0, [(0, [7])]⟩) 1))).1.subscribers = [] := by
  have h := reset_then_instance_fresh (World.mk (some ⟨0, [(0, [7])]⟩) 1)
    ⟨0, [(0, [7])]⟩ (by decide) rfl
  exact ⟨by decide, h.1, h.2.1⟩

/-! ## The shape of the `EventBus` class (claims C4 and C5)

Claims C4 and C5 are about where Python binds names, not about what the
method bodies compute, so the embedding here is of the statement layout
of `events.py` lines 52–123 and of the evaluation of the two class-level
statements, lines 55–56. -/

/-- A top-level statement of `__init__`'s body as it appears in the
source: either an assignment to an attribute of `self`, or a nested
`def`, which binds only a local name of `__init__` and is discarded when
`__init__` returns. -/
inductive InitStmt where
  | selfAssign (attr : String)
  | localDef (name : String)
deriving DecidableEq, Repr

/-- The body of `EventBus.__init__` (lines 58–123): two `self` attribute
assignments, then the five `def`s — all five are indented inside
`__init__`, so they are local functions of `__init__`, not methods. -/
def eventBusInitBody : List InitStmt :=
  [InitStmt.selfAssign "_subscribers", InitStmt.selfAssign "_sub_lock",
   InitStmt.localDef "instance", InitStmt.localDef "reset",
   InitStmt.localDef "subscribe", InitStmt.localDef "unsubscribe",
   InitStmt.localDef "publish"]

/-- The names bound at class level by the `EventBus` class body
(lines 55–58): the two assignment targets and the single `def` directly
under the class. -/
def eventBusClassLevelNames : List String :=
  ["_instance", "_lock", "__init__"]

/-- The instance attributes `__init__` creates: the targets of its
`self.… = …` assignments. -/
def initSelfAttrs (body : List InitStmt) : List String :=
  body.foldr
    (fun s acc =>
      match s with
      | InitStmt.selfAssign a => a :: acc
      | InitStmt.localDef _ => acc) []

/-- The local function names `__init__` binds and discards. -/
def initLocalNames (body : List InitStmt) : List String :=
  body.foldr
    (fun s acc =>
      match s with
      | InitStmt.selfAssign _ => acc
      | InitStmt.localDef n => n :: acc) []

/-- Attribute lookup on the `EventBus` class object: class-level names
only. -/
def clsHasAttr (name : String) : Bool :=
  eventBusClassLevelNames.contains name

/-- Attribute lookup on a bus instance: its instance attributes, then the
class's. -/
def busHasAttr (name : String) : Bool :=
  (initSelfAttrs eventBusInitBody).contains name || clsHasAttr name

/-- `getattr` as used by a call `obj.name(...)`: `ok` when the attribute
exists, `AttributeError` otherwise. -/
def getattrCheck (hasIt : Bool) (owner : String) (name : String) : Except PyErr Unit :=
  if hasIt then Except.ok () else Except.error (PyErr.attrError owner name)

/-- Whether an evaluation outcome is precisely the `AttributeError` for
the given owner and attribute name. -/
def raisesAttrErr (r : Except PyErr Unit) (owner : String) (name : String) : Bool :=
  match r with
  | Except.error (PyErr.attrError o a) => o == owner && a == name
  | _ => false

/-- C4: `instance`, `reset`, `subscribe`, `unsubscribe` and `publish` are
exactly the local functions nested inside `__init__`, and none of the
five is an attribute of the `EventBus` class or of a bus instance: an
attempted call of any of them on either raises `AttributeError`. -/
theorem eventBus_operations_are_init_locals :
    initLocalNames eventBusInitBody =
      ["instance", "reset", "subscribe", "unsubscribe", "publish"] ∧
    (["instance", "reset", "subscribe", "unsubscribe", "publish"].all
      (fun m => !clsHasAttr m && !busHasAttr m)) = true ∧
    (["instance", "reset", "subscribe", "unsubscribe", "publish"].all
      (fun m => raisesAttrErr (getattrCheck (clsHasAttr m) "EventBus" m) "EventBus" m &&
        raisesAttrErr (getattrCheck (busHasAttr m) "EventBus" m) "EventBus" m)) = true := by
  exact ⟨rfl, rfl, rfl⟩

/-- The attributes of the `threading` module that matter here: it
provides `Lock`; it provides no attribute named `lock`. -/
def threadingAttrs : List String :=
  ["Lock", "RLock", "Condition", "Semaphore", "Thread", "Timer"]

/-- Evaluation of a module attribute access `module.attr`:
`AttributeError` when the module has no such attribute. -/
def evalModuleAttr (m : String) (attrs : List String) (a : String) : Except PyErr Unit :=
  if attrs.contains a then Except.ok () else Except.error (PyErr.attrError m a)

/-- A class-body statement of `events.py` lines 55–58, in the three forms
that occur there: an annotated assignment (under
`from __future__ import annotations` the annotation is not evaluated, so
it cannot fail), the chained assignment of line 56 — whose recorded data
are the first target, the `module.attr` access of the right-hand side,
and the `module.attr` access standing as the subscript index of the
second target — and a `def`. -/
inductive ClsStmt where
  | annAssign (target : String)
  | chainAssignSubscript (first : String) (rhs : String × String) (idx : String × String)
  | defStmt (name : String)
deriving DecidableEq, Repr

/-- Evaluation of one class-body statement, following Python's order for
a chained assignment `a = X[i] = rhs`: first the right-hand side, then
the targets left to right — binding the plain name `a`, then evaluating
the subscript target, whose index expression `i` is evaluated before any
item assignment could happen. -/
def evalClsStmt : ClsStmt → Except PyErr Unit
  | ClsStmt.annAssign _ => Except.ok ()
  | ClsStmt.chainAssignSubscript _ rhs idx => do
    let _ ← evalModuleAttr rhs.1 threadingAttrs rhs.2
    let _ ← evalModuleAttr idx.1 threadingAttrs idx.2
    Except.ok ()
  | ClsStmt.defStmt _ => Except.ok ()

/-- Running a class body: statements in order, stopping at the first
raised error. -/
def evalClsBody : List ClsStmt → Except PyErr Unit
  | [] => Except.ok ()
  | s :: rest => do
    let _ ← evalClsStmt s
    evalClsBody rest

/-- The `EventBus` class body, lines 55–58 of `events.py`:
`_instance: ClassVar[Optional[EventBus]] = None`, then
`_lock = ClassVar[threading.lock] = threading.Lock()`, then
`def __init__`. -/
def eventBusClsBody : List ClsStmt :=
  [ClsStmt.annAssign "_instance",
   ClsStmt.chainAssignSubscript "_lock" ("threading", "Lock") ("threading", "lock"),
   ClsStmt.defStmt "__init__"]

/-- Whether executing the `class EventBus:` statement produces the class. -/
def eventBusClassCreated : Bool :=
  match evalClsBody eventBusClsBody with
  | Except.ok _ => true
  | Except.error _ => false

/-- C5: evaluating the `EventBus` class body fails — the chained
assignment of line 56 evaluates `threading.lock` (as the subscript index
of its second target `ClassVar[threading.lock]`), which does not exist —
so the module-level `class` statement raises `AttributeError`, importing
the events module fails, and the `EventBus` type is never created. -/
theorem eventBus_class_body_raises :
    evalClsBody eventBusClsBody = Except.error (PyErr.attrError "threading" "lock") ∧
    eventBusClassCreated = false := by
  exact ⟨rfl, rfl⟩
